import Mathlib

set_option maxRecDepth 8192

/-!
Verification of the vibe-generation core of `src/app.py` (the "MusicU"
Streamlit application).  Pure data flow is embedded directly; Python
exceptions are modelled with `Except`; the external Gemini client and the
Supabase client are modelled by explicit inputs (`ClientResult`, `Store`).
The file ends with one theorem per specification claim.
-/

/-- JSON values as produced by the Python `json.loads` call at
`src/app.py:196`.  Number literals are kept as their lexemes, since the
program never computes with numeric payload values. -/
inductive JValue where
  | null : JValue
  | bool (b : Bool) : JValue
  | num (lexeme : String) : JValue
  | str (s : String) : JValue
  | arr (elems : List JValue) : JValue
  | obj (fields : List (String × JValue)) : JValue

/-- Association list representing a parsed JSON object / Python dict. -/
abbrev JObj := List (String × JValue)

/-- Lookup in a parsed object; models Python `dict.get(key)` returning
`None` when the key is absent.  Parsed objects bind each key at most once
(see `objInsert`), so first-match lookup agrees with dict lookup. -/
def jget (fields : JObj) (key : String) : Option JValue :=
  match fields with
  | [] => none
  | (k, v) :: rest => if k = key then some v else jget rest key

/-- Lookup with default; models Python `dict.get(key, default)`. -/
def getOr (fields : JObj) (key : String) (dflt : JValue) : JValue :=
  (jget fields key).getD dflt

/-- Key insertion as performed when Python builds a dict from JSON text:
a repeated key overwrites the earlier value, keeping its position. -/
def objInsert (fields : JObj) (key : String) (v : JValue) : JObj :=
  match fields with
  | [] => [(key, v)]
  | (k, w) :: rest =>
    if k = key then (k, v) :: rest else (k, w) :: objInsert rest key v

/-- Decides whether the first list is an initial segment of the second. -/
def charsStartWith : List Char → List Char → Bool
  | [], _ => true
  | _ :: _, [] => false
  | p :: ps, h :: hs => p == h && charsStartWith ps hs

/-- Decides whether the second list occurs contiguously in the first;
models the Python `in` operator on strings. -/
def charsContain : List Char → List Char → Bool
  | [], needle => needle.isEmpty
  | c :: t, needle => charsStartWith needle (c :: t) || charsContain t needle

/-- Substring test on strings, models Python `needle in hay`. -/
def strContainsSub (hay needle : String) : Bool :=
  charsContain hay.data needle.data

/-- String prefix test used to state the error-wrapping claims. -/
def strStartsWith (s pre : String) : Bool :=
  charsStartWith pre.data s.data

/-- ASCII lowercasing, models Python `str.lower()` on the ASCII messages
this program inspects. -/
def strLower (s : String) : String :=
  String.mk (s.data.map Char.toLower)

/-- Diagnostic text in the style of CPython `json`.  Positions are reported
as character offsets with the single-line line/column convention (the raw
outputs reasoned about here are single-line). -/
def mkErr (what : String) (pos : Nat) : String :=
  what ++ ": line 1 column " ++ toString (pos + 1) ++ " (char " ++ toString pos ++ ")"

/-- Whitespace characters skipped by the JSON decoder. -/
def isJsonWs (c : Char) : Bool :=
  c = ' ' || c = '\t' || c = '\n' || c = '\r'

/-- Consumes leading JSON whitespace, tracking the character offset. -/
def skipWs : List Char → Nat → List Char × Nat
  | [], pos => ([], pos)
  | c :: cs, pos =>
    if isJsonWs c then skipWs cs (pos + 1) else (c :: cs, pos)

/-- Backslash escapes recognised inside JSON string literals (the `\u`
form is outside the modelled subset; no claim exercises it). -/
def escChar (c : Char) : Option Char :=
  if c = '\"' then some '\"'
  else if c = '\\' then some '\\'
  else if c = '/' then some '/'
  else if c = 'b' then some '\x08'
  else if c = 'f' then some '\x0c'
  else if c = 'n' then some '\n'
  else if c = 'r' then some '\r'
  else if c = 't' then some '\t'
  else none

/-- Scans a JSON string body after its opening quote.  `startPos` is the
offset of the opening quote, used for the unterminated-string diagnostic. -/
def parseStringBody (startPos : Nat) : List Char → Nat → List Char →
    Except String (String × List Char × Nat)
  | [], _, _ => .error (mkErr "Unterminated string starting at" startPos)
  | '\"' :: rest, pos, acc => .ok (String.mk acc, rest, pos + 1)
  | '\\' :: rest, pos, acc =>
    match rest with
    | [] => .error (mkErr "Unterminated string starting at" startPos)
    | e :: rest2 =>
      match escChar e with
      | some c => parseStringBody startPos rest2 (pos + 2) (acc ++ [c])
      | none => .error (mkErr "Invalid escape" pos)
  | c :: rest, pos, acc => parseStringBody startPos rest (pos + 1) (acc ++ [c])

/-- Longest digit run at the head of the input. -/
def takeWhileDigits : List Char → List Char × List Char
  | [] => ([], [])
  | c :: cs =>
    if c.isDigit then
      let (d, r) := takeWhileDigits cs
      (c :: d, r)
    else ([], c :: cs)

/-- Integer part of a JSON number: `0`, or a nonzero digit followed by
digits (a leading zero cannot be followed by more digits). -/
def parseIntPart : List Char → Option (List Char × List Char)
  | [] => none
  | c :: cs =>
    if c = '0' then some ([c], cs)
    else if c.isDigit then
      let (d, r) := takeWhileDigits cs
      some (c :: d, r)
    else none

/-- Fraction part of a JSON number, if present (a dot must be followed by
at least one digit to be consumed). -/
def parseFracPart (cs : List Char) : List Char × List Char :=
  match cs with
  | '.' :: c :: rest =>
    if c.isDigit then
      let (d, r) := takeWhileDigits rest
      ('.' :: c :: d, r)
    else ([], cs)
  | _ => ([], cs)

/-- Exponent part of a JSON number, if present. -/
def parseExpPart (cs : List Char) : List Char × List Char :=
  match cs with
  | e :: rest =>
    if e = 'e' ∨ e = 'E' then
      let signAndRest : List Char × List Char :=
        match rest with
        | s :: tl => if s = '+' ∨ s = '-' then ([s], tl) else ([], rest)
        | [] => ([], [])
      match signAndRest.2 with
      | c :: tl2 =>
        if c.isDigit then
          let (d, r) := takeWhileDigits tl2
          (e :: (signAndRest.1 ++ c :: d), r)
        else ([], cs)
      | [] => ([], cs)
    else ([], cs)
  | [] => ([], [])

/-- Scans a JSON number lexeme following the `json` module number grammar. -/
def parseNum (cs : List Char) (pos : Nat) : Except String (JValue × List Char × Nat) :=
  let signAndRest : List Char × List Char :=
    match cs with
    | '-' :: tl => (['-'], tl)
    | _ => ([], cs)
  match parseIntPart signAndRest.2 with
  | none => .error (mkErr "Expecting value" pos)
  | some (ds, rest2) =>
    let (fs, rest3) := parseFracPart rest2
    let (es, rest4) := parseExpPart rest3
    let lex := signAndRest.1 ++ ds ++ fs ++ es
    .ok (JValue.num (String.mk lex), rest4, pos + lex.length)

/-- Parser modes: a single value, the element loop of an array, or the
member loop of an object (`first` distinguishes the position right after
the opening bracket from positions right after a comma). -/
inductive PMode where
  | value : PMode
  | arrLoop (first : Bool) (acc : List JValue) : PMode
  | objLoop (first : Bool) (acc : JObj) : PMode

/-- Fuel-indexed JSON parser core.  The fuel only bounds nesting and
iteration so that the recursion is structural; `json_loads` supplies more
fuel than any input can consume. -/
def parseStep : Nat → PMode → List Char → Nat → Except String (JValue × List Char × Nat)
  | 0, _, _, pos => .error (mkErr "Model fuel exhausted" pos)
  | fuel + 1, PMode.value, cs, pos =>
    match cs with
    | [] => .error (mkErr "Expecting value" pos)
    | c :: rest =>
      if c = '\"' then
        match parseStringBody pos rest (pos + 1) [] with
        | .error e => .error e
        | .ok (s, r, p) => .ok (JValue.str s, r, p)
      else if c = '\x7b' then
        parseStep fuel (PMode.objLoop true []) rest (pos + 1)
      else if c = '[' then
        parseStep fuel (PMode.arrLoop true []) rest (pos + 1)
      else if c = 't' then
        if charsStartWith ['r', 'u', 'e'] rest then
          .ok (JValue.bool true, rest.drop 3, pos + 4)
        else .error (mkErr "Expecting value" pos)
      else if c = 'f' then
        if charsStartWith ['a', 'l', 's', 'e'] rest then
          .ok (JValue.bool false, rest.drop 4, pos + 5)
        else .error (mkErr "Expecting value" pos)
      else if c = 'n' then
        if charsStartWith ['u', 'l', 'l'] rest then
          .ok (JValue.null, rest.drop 3, pos + 4)
        else .error (mkErr "Expecting value" pos)
      else if c = '-' ∨ c.isDigit then
        parseNum (c :: rest) pos
      else .error (mkErr "Expecting value" pos)
  | fuel + 1, PMode.arrLoop first acc, cs, pos =>
    let s1 := skipWs cs pos
    match s1.1 with
    | ']' :: rest =>
      if first then .ok (JValue.arr acc, rest, s1.2 + 1)
      else .error (mkErr "Expecting value" s1.2)
    | _ =>
      match parseStep fuel PMode.value s1.1 s1.2 with
      | .error e => .error e
      | .ok (v, cs2, p2) =>
        let s3 := skipWs cs2 p2
        match s3.1 with
        | ',' :: rest => parseStep fuel (PMode.arrLoop false (acc ++ [v])) rest (s3.2 + 1)
        | ']' :: rest => .ok (JValue.arr (acc ++ [v]), rest, s3.2 + 1)
        | _ => .error (mkErr "Expecting comma delimiter" s3.2)
  | fuel + 1, PMode.objLoop first acc, cs, pos =>
    let s1 := skipWs cs pos
    match s1.1 with
    | '\x7d' :: rest =>
      if first then .ok (JValue.obj acc, rest, s1.2 + 1)
      else .error (mkErr "Expecting property name enclosed in double quotes" s1.2)
    | '\"' :: rest =>
      match parseStringBody s1.2 rest (s1.2 + 1) [] with
      | .error e => .error e
      | .ok (key, cs2, p2) =>
        let s3 := skipWs cs2 p2
        match s3.1 with
        | ':' :: rest3 =>
          let s4 := skipWs rest3 (s3.2 + 1)
          match parseStep fuel PMode.value s4.1 s4.2 with
          | .error e => .error e
          | .ok (v, cs5, p5) =>
            let s6 := skipWs cs5 p5
            match s6.1 with
            | ',' :: rest6 =>
              parseStep fuel (PMode.objLoop false (objInsert acc key v)) rest6 (s6.2 + 1)
            | '\x7d' :: rest6 => .ok (JValue.obj (objInsert acc key v), rest6, s6.2 + 1)
            | _ => .error (mkErr "Expecting comma delimiter" s6.2)
        | _ => .error (mkErr "Expecting colon delimiter" s3.2)
    | _ => .error (mkErr "Expecting property name enclosed in double quotes" s1.2)

/-- Model of the Python `json.loads` library call (`src/app.py:196`) on the
JSON grammar: leading and trailing whitespace is skipped, exactly one value
must span the whole input, and failures carry a CPython-style diagnostic.
`NaN`/`Infinity` literals and `\u` escapes lie outside the modelled subset;
no raw output reasoned about below uses them. -/
def json_loads (s : String) : Except String JValue :=
  let s0 := skipWs s.data 0
  match parseStep (2 * s.data.length + 4) PMode.value s0.1 s0.2 with
  | .error e => .error e
  | .ok (v, rest, p2) =>
    let s3 := skipWs rest p2
    match s3.1 with
    | [] => .ok v
    | _ => .error (mkErr "Extra data" s3.2)

/-- Fixed text of the prompt template up to and including the opening quote
around the user description (`src/app.py:165`). -/
def prompt_head : String :=
  "Given the following description of a person, suggest:\n1. Mood\n2. Music genre\n3. Energy level (low, medium, high)\n4. Aesthetic keywords (3-5)\n5. A matching artist or song\n\nDescription: \""

/-- Fixed text of the prompt template from the closing quote around the
user description to the end (`src/app.py:172`; the doubled braces of the
Python f-string denote literal braces). -/
def prompt_tail : String :=
  "\"\n\nPlease respond with a JSON object in this exact format:\n\x7b\n    \"mood\": \"string\",\n    \"genre\": \"string\", \n    \"energy_level\": \"string\",\n    \"aesthetic_keywords\": [\"string1\", \"string2\", \"string3\"],\n    \"suggested_music\": \"string\"\n\x7d"

/-- Prompt construction from `src/app.py:165`: the f-string interpolates
the description verbatim between the two fixed template parts. -/
def build_prompt (description : String) : String :=
  "Given the following description of a person, suggest:\n1. Mood\n2. Music genre\n3. Energy level (low, medium, high)\n4. Aesthetic keywords (3-5)\n5. A matching artist or song\n\nDescription: \"" ++ description ++ "\"\n\nPlease respond with a JSON object in this exact format:\n\x7b\n    \"mood\": \"string\",\n    \"genre\": \"string\", \n    \"energy_level\": \"string\",\n    \"aesthetic_keywords\": [\"string1\", \"string2\", \"string3\"],\n    \"suggested_music\": \"string\"\n\x7d"

/-- Behaviour of the external Gemini round trip at `src/app.py:185`:
either it raises an exception whose text is `message`, or it yields
`response.text`, which may be `None`. -/
inductive ClientResult where
  | raises (message : String) : ClientResult
  | returns (text : Option String) : ClientResult

/-- Embedding of `generate_music_vibe` (`src/app.py:160`).  Inside the
`try` block the code builds the prompt, performs the client call, raises on
a `None` text, and applies `json.loads`; the first `except` clause wraps
`json.JSONDecodeError` with the parse prefix, the second wraps every other
exception (including the explicit no-content raise, which is an ordinary
`Exception` and therefore caught by the second clause) with the generate
prefix. -/
def generate_music_vibe (description : String) (cr : ClientResult) : Except String JValue :=
  let _prompt := build_prompt description
  match cr with
  | .raises e => .error ("Failed to generate music vibe: " ++ e)
  | .returns none =>
    .error ("Failed to generate music vibe: No content received from AI response")
  | .returns (some content) =>
    match json_loads content with
    | .error diag => .error ("Failed to parse AI response: " ++ diag)
    | .ok v => .ok v

/-- Replacement of every occurrence of one character, modelling Python
`str.replace` with a single-character pattern (`src/app.py:279`). -/
def pyReplaceChar (s : String) (old new : Char) : String :=
  String.mk (s.data.map fun c => if c = old then new else c)

/-- Search query derived from `suggested_music` (`src/app.py:279`). -/
def youtube_query (suggested : String) : String :=
  pyReplaceChar (pyReplaceChar suggested ' ' '+') '-' '+'

/-- Search-link URL built at `src/app.py:280`. -/
def youtube_url (suggested : String) : String :=
  "https://www.youtube.com/results?search_query=" ++ youtube_query suggested

/-- Numeric zero test on a JSON number lexeme: the value is zero exactly
when the mantissa (the part before any exponent marker) contains no
nonzero digit, covering forms such as `0`, `-0`, `0.00` and `0e5`. -/
def numIsZero (lexeme : String) : Bool :=
  (lexeme.data.takeWhile fun c => !(c = 'e' || c = 'E')).all
    fun c => !(c.isDigit && !(c = '0'))

/-- Python truthiness of a JSON-derived value: `None`, `False`, numeric
zero, and empty strings, lists and dicts are falsy; everything else is
truthy. -/
def pyTruthy (v : JValue) : Bool :=
  match v with
  | .null => false
  | .bool b => b
  | .num lexeme => !(numIsZero lexeme)
  | .str s => !s.data.isEmpty
  | .arr es => !es.isEmpty
  | .obj fs => !fs.isEmpty

/-- Python iterability of a JSON-derived value: strings, lists and dicts
iterate (characters, elements, keys); `None`, booleans and numbers raise
`TypeError` in a `for` loop. -/
def pyIterable (v : JValue) : Bool :=
  match v with
  | .str _ => true
  | .arr _ => true
  | .obj _ => true
  | _ => false

/-- Field values surfaced by `display_vibe_result`: the five `dict.get`
results (with their documented defaults) plus the derived search link. -/
structure RenderedVibe where
  mood : JValue
  genre : JValue
  energy_level : JValue
  aesthetic_keywords : JValue
  suggested_music : JValue
  youtube_link : String

/-- Embedding of the data computed by `display_vibe_result`
(`src/app.py:204`): each field is read with `dict.get` and a documented
default.  Failure paths, in the evaluation order of the source: `.get` on a
non-dict payload raises `AttributeError`; `.lower()` on a non-string energy
value raises `AttributeError` (`src/app.py:247`, first column rendered
first); a truthy but non-iterable keywords value raises `TypeError` in the
list comprehension (`src/app.py:261`); `.replace` on a non-string
suggestion raises `AttributeError` (`src/app.py:279`).  A falsy keywords
value takes the no-keywords branch and a truthy iterable one is rendered
element by element, neither of which raises.  The markdown rendering around
these values is presentation only and carries no further data. -/
def display_vibe_result (j : JValue) : Except String RenderedVibe :=
  match j with
  | .obj fields =>
    match getOr fields "energy_level" (JValue.str "Unknown") with
    | .str e =>
      if pyTruthy (getOr fields "aesthetic_keywords" (JValue.arr [])) &&
          !pyIterable (getOr fields "aesthetic_keywords" (JValue.arr [])) then
        .error "TypeError: keywords value is not iterable"
      else
        match getOr fields "suggested_music" (JValue.str "No suggestion available") with
        | .str sm =>
          .ok { mood := getOr fields "mood" (JValue.str "Unknown")
                genre := getOr fields "genre" (JValue.str "Unknown")
                energy_level := JValue.str e
                aesthetic_keywords := getOr fields "aesthetic_keywords" (JValue.arr [])
                suggested_music := JValue.str sm
                youtube_link := youtube_url sm }
        | _ => .error "AttributeError: rendered field is not a string"
    | _ => .error "AttributeError: rendered field is not a string"
  | _ => .error "AttributeError: result object has no attribute get"

/-- Row of the `user_vibes` table (`src/app.py:136`): the vibe columns are
written with one-argument `dict.get`, hence optional; `created_at` is an
abstract timestamp standing for the ISO string written by the code. -/
structure HistoryRow where
  user_id : String
  description : String
  mood : Option JValue
  genre : Option JValue
  energy_level : Option JValue
  aesthetic_keywords : Option JValue
  suggested_music : Option JValue
  created_at : Nat

/-- Model of the configured Supabase client handle: the current contents
of `user_vibes` plus two switches that make `execute()` raise, covering
transient service failures of the insert and of the select. -/
structure Store where
  rows : List HistoryRow
  insertFails : Option String
  queryFails : Option String

/-- Body of the `try` block of `save_vibe_to_history` once the handle is
known to be configured: reading the vibe fields with `.get` raises
`AttributeError` on a non-dict, and `execute()` may raise. -/
def save_attempt (s : Store) (user_id description : String) (vibe_data : JValue)
    (now : Nat) : Except String Store :=
  match vibe_data with
  | .obj fields =>
    match s.insertFails with
    | some e => .error e
    | none =>
      .ok { s with rows := s.rows ++
        [{ user_id := user_id
           description := description
           mood := jget fields "mood"
           genre := jget fields "genre"
           energy_level := jget fields "energy_level"
           aesthetic_keywords := jget fields "aesthetic_keywords"
           suggested_music := jget fields "suggested_music"
           created_at := now }] }
  | _ => .error "AttributeError: value has no attribute get"

/-- Embedding of `save_vibe_to_history` (`src/app.py:132`): when the handle
is unconfigured nothing happens; otherwise any exception from the insert is
caught and logged (Python `print`), never re-raised.  The returned pair is
the possibly-updated store and the log lines emitted. -/
def save_vibe_to_history (db : Option Store) (user_id description : String)
    (vibe_data : JValue) (now : Nat) : Option Store × List String :=
  match db with
  | none => (none, [])
  | some s =>
    match save_attempt s user_id description vibe_data now with
    | .error e => (some s, ["Failed to save vibe: " ++ e])
    | .ok s2 => (some s2, [])

/-- Insertion into a list kept in descending `created_at` order. -/
def insertDesc (r : HistoryRow) : List HistoryRow → List HistoryRow
  | [] => [r]
  | x :: xs =>
    if x.created_at ≤ r.created_at then r :: x :: xs else x :: insertDesc r xs

/-- Sorting by descending `created_at`, modelling the server-side
`order(created_at, desc=True)` of the history query. -/
def sortDesc : List HistoryRow → List HistoryRow
  | [] => []
  | x :: xs => insertDesc x (sortDesc xs)

/-- Semantics of the query chain at `src/app.py:153`: rows of the user,
newest first, capped at 10. -/
def runHistoryQuery (rows : List HistoryRow) (uid : String) : List HistoryRow :=
  (sortDesc (rows.filter fun r => r.user_id == uid)).take 10

/-- Result of `execute()` on the history query: the data, unless the
client raises. -/
def historyQueryResult (s : Store) (uid : String) : Except String (List HistoryRow) :=
  match s.queryFails with
  | some e => .error e
  | none => .ok (runHistoryQuery s.rows uid)

/-- Embedding of `get_user_history` (`src/app.py:149`): an unconfigured
handle yields `[]`, a raising query is caught and yields `[]`, otherwise
the query data is returned. -/
def get_user_history (db : Option Store) (uid : String) : List HistoryRow :=
  match db with
  | none => []
  | some s =>
    match historyQueryResult s uid with
    | .error _ => []
    | .ok data => data

/-- User-facing error taxonomy of spec section 7. -/
inductive ErrorKind where
  | CredentialError : ErrorKind
  | RateLimitError : ErrorKind
  | GenericServiceError : ErrorKind
deriving DecidableEq

/-- Modelled from the spec: the Error Classifier of spec section 4.4.  The
code that inspects failure messages lives in the part of `main()` that is
absent from `src/app.py` (the file ends inside the style block of
`main()`), so the classifier is taken from the spec words: case-insensitive
substring inspection of the message, credential words first, then
rate-limit words, generic otherwise. -/
def classify_error (msg : String) : ErrorKind :=
  let m := strLower msg
  if strContainsSub m "api_key" || strContainsSub m "unauthorized" ||
      strContainsSub m "permission" then
    ErrorKind.CredentialError
  else if strContainsSub m "quota" || strContainsSub m "limit" then
    ErrorKind.RateLimitError
  else
    ErrorKind.GenericServiceError

/-- Terminal states of the orchestrated vibe request (spec section 4.5). -/
inductive Outcome where
  | Succeeded (result : JValue) : Outcome
  | Failed (kind : ErrorKind) (message : String) : Outcome

/-- Modelled from the spec: the Vibe Request Orchestrator of spec section
4.5 (the corresponding tail of `main()` is absent from `src/app.py`).  It
runs `generate_music_vibe`; a failure is classified and becomes the
`Failed` state; a success becomes `Succeeded` and, when a session exists,
additionally triggers the fire-and-forget persistence write.  The returned
triple is the terminal state, the resulting store, and the log lines. -/
def orchestrate (description : String) (cr : ClientResult) (db : Option Store)
    (authed : Bool) (uid : String) (now : Nat) : Outcome × Option Store × List String :=
  match generate_music_vibe description cr with
  | .error m => (Outcome.Failed (classify_error m) m, db, [])
  | .ok j =>
    if authed then
      let r := save_vibe_to_history db uid description j now
      (Outcome.Succeeded j, r.1, r.2)
    else (Outcome.Succeeded j, db, [])

/-- Generation followed by surfacing: the value-level composition of
`generate_music_vibe` and `display_vibe_result`, used to state the
no-partial-result invariant. -/
def vibe_request_pipeline (description : String) (cr : ClientResult) :
    Except String RenderedVibe :=
  match generate_music_vibe description cr with
  | .error m => .error m
  | .ok j => display_vibe_result j

/-- Agreement of a rendered result with its payload: every field is the
payload value under its key when the key is present, and the documented
default otherwise. -/
def RenderMatches (fields : JObj) (r : RenderedVibe) : Prop :=
  r.mood = getOr fields "mood" (JValue.str "Unknown") ∧
  r.genre = getOr fields "genre" (JValue.str "Unknown") ∧
  r.energy_level = getOr fields "energy_level" (JValue.str "Unknown") ∧
  r.aesthetic_keywords = getOr fields "aesthetic_keywords" (JValue.arr []) ∧
  r.suggested_music = getOr fields "suggested_music" (JValue.str "No suggestion available")

/-- Reading of "the failure message indicates empty output", taken
generously: the message mentions emptiness or missing content. -/
def mentions_empty_output (msg : String) : Bool :=
  strContainsSub (strLower msg) "empty" || strContainsSub (strLower msg) "no content"

/-- Newest-first ordering relation on history rows. -/
def rowGe (a b : HistoryRow) : Prop := b.created_at ≤ a.created_at

/-! Helper lemmas shared by the claim theorems. -/

/-- Prefix test succeeds on an appended extension. -/
theorem charsStartWith_append (p s : List Char) : charsStartWith p (p ++ s) = true := by
  induction p with
  | nil => rfl
  | cons c cs ih => simp [charsStartWith, ih]

/-- String-level form of `charsStartWith_append`. -/
theorem strStartsWith_append (p s : String) : strStartsWith (p ++ s) p = true := by
  cases p with
  | mk pd =>
    cases s with
    | mk sd => exact charsStartWith_append pd sd

/-- Membership through `insertDesc`. -/
theorem mem_insertDesc {x r : HistoryRow} {l : List HistoryRow} :
    x ∈ insertDesc r l ↔ x = r ∨ x ∈ l := by
  induction l with
  | nil => simp [insertDesc]
  | cons y ys ih =>
    by_cases h : y.created_at ≤ r.created_at
    · simp only [insertDesc, if_pos h, List.mem_cons]
    · simp only [insertDesc, if_neg h, List.mem_cons, ih]
      tauto

/-- `insertDesc` preserves the newest-first invariant. -/
theorem pairwise_insertDesc (r : HistoryRow) (l : List HistoryRow)
    (hl : l.Pairwise rowGe) : (insertDesc r l).Pairwise rowGe := by
  induction l with
  | nil => simp [insertDesc, rowGe]
  | cons y ys ih =>
    rcases List.pairwise_cons.mp hl with ⟨hy, hys⟩
    by_cases h : y.created_at ≤ r.created_at
    · simp only [insertDesc, if_pos h]
      refine List.pairwise_cons.mpr ⟨?_, hl⟩
      intro z hz
      rcases List.mem_cons.mp hz with rfl | hz2
      · exact h
      · exact le_trans (hy z hz2) h
    · simp only [insertDesc, if_neg h]
      refine List.pairwise_cons.mpr ⟨?_, ih hys⟩
      intro z hz
      rcases mem_insertDesc.mp hz with rfl | hz2
      · exact Nat.le_of_not_le h
      · exact hy z hz2

/-- `sortDesc` output is sorted newest first. -/
theorem pairwise_sortDesc (l : List HistoryRow) : (sortDesc l).Pairwise rowGe := by
  induction l with
  | nil => simp [sortDesc]
  | cons x xs ih => exact pairwise_insertDesc x (sortDesc xs) ih

/-- `sortDesc` permutes, hence preserves, membership. -/
theorem mem_sortDesc {x : HistoryRow} {l : List HistoryRow} :
    x ∈ sortDesc l ↔ x ∈ l := by
  induction l with
  | nil => simp [sortDesc]
  | cons y ys ih => simp [sortDesc, mem_insertDesc, ih]

/-- Reduction of `display_vibe_result` once the two string-typed slots are
known to hold strings and the keywords slot is known not to raise. -/
theorem display_eq_of_str (fields : JObj) (e sm : String)
    (hE : getOr fields "energy_level" (JValue.str "Unknown") = JValue.str e)
    (hK : (pyTruthy (getOr fields "aesthetic_keywords" (JValue.arr [])) &&
      !pyIterable (getOr fields "aesthetic_keywords" (JValue.arr []))) = false)
    (hS : getOr fields "suggested_music" (JValue.str "No suggestion available") = JValue.str sm) :
    display_vibe_result (JValue.obj fields) =
      .ok { mood := getOr fields "mood" (JValue.str "Unknown")
            genre := getOr fields "genre" (JValue.str "Unknown")
            energy_level := JValue.str e
            aesthetic_keywords := getOr fields "aesthetic_keywords" (JValue.arr [])
            suggested_music := JValue.str sm
            youtube_link := youtube_url sm } := by
  simp only [display_vibe_result, hE, hK, hS, Bool.false_eq_true, if_false]

/-- The rendered result depends only on the five field lookups. -/
theorem display_congr (f1 f2 : JObj)
    (h1 : getOr f1 "mood" (JValue.str "Unknown") = getOr f2 "mood" (JValue.str "Unknown"))
    (h2 : getOr f1 "genre" (JValue.str "Unknown") = getOr f2 "genre" (JValue.str "Unknown"))
    (h3 : getOr f1 "energy_level" (JValue.str "Unknown") =
      getOr f2 "energy_level" (JValue.str "Unknown"))
    (h4 : getOr f1 "aesthetic_keywords" (JValue.arr []) =
      getOr f2 "aesthetic_keywords" (JValue.arr []))
    (h5 : getOr f1 "suggested_music" (JValue.str "No suggestion available") =
      getOr f2 "suggested_music" (JValue.str "No suggestion available")) :
    display_vibe_result (JValue.obj f1) = display_vibe_result (JValue.obj f2) := by
  simp only [display_vibe_result, h1, h2, h3, h4, h5]

/-! Claim theorems. -/

/-- C2, claim as stated, refuted: for the empty raw output `""` the failure
message is the JSON parse diagnostic, which does not indicate empty output
(the empty string falls through the `content is None` check at
`src/app.py:194` into `json.loads`). -/
theorem C2_counterexample :
    generate_music_vibe "a happy person" (ClientResult.returns (some "")) =
      .error "Failed to parse AI response: Expecting value: line 1 column 1 (char 0)" ∧
    mentions_empty_output
      "Failed to parse AI response: Expecting value: line 1 column 1 (char 0)" = false :=
  ⟨rfl, rfl⟩

/-- C2, amended: a `None` raw output fails with the no-content message
(wrapped by the generate prefix, since the explicit raise is caught by the
generic handler), the empty string fails with the JSON parse diagnostic
(wrapped by the parse prefix), and in both cases the orchestrator
classifies the failure as `GenericServiceError`, never as a credential or
rate-limit error. -/
theorem C2_holds (description uid : String) (db : Option Store) (authed : Bool) (now : Nat) :
    generate_music_vibe description (ClientResult.returns none) =
      .error "Failed to generate music vibe: No content received from AI response" ∧
    mentions_empty_output
      "Failed to generate music vibe: No content received from AI response" = true ∧
    generate_music_vibe description (ClientResult.returns (some "")) =
      .error "Failed to parse AI response: Expecting value: line 1 column 1 (char 0)" ∧
    (orchestrate description (ClientResult.returns none) db authed uid now).1 =
      Outcome.Failed ErrorKind.GenericServiceError
        "Failed to generate music vibe: No content received from AI response" ∧
    (orchestrate description (ClientResult.returns (some "")) db authed uid now).1 =
      Outcome.Failed ErrorKind.GenericServiceError
        "Failed to parse AI response: Expecting value: line 1 column 1 (char 0)" :=
  ⟨rfl, rfl, rfl, rfl, rfl⟩

/-- C3: every failure message is mapped to exactly one kind by
case-insensitive substring inspection: credential words win first, then
rate-limit words, otherwise the generic kind (`classify_error` is a total
function, so exactly one kind results). -/
theorem C3_holds (msg : String) :
    ((strContainsSub (strLower msg) "api_key" || strContainsSub (strLower msg) "unauthorized" ||
        strContainsSub (strLower msg) "permission") = true →
      classify_error msg = ErrorKind.CredentialError) ∧
    ((strContainsSub (strLower msg) "api_key" || strContainsSub (strLower msg) "unauthorized" ||
        strContainsSub (strLower msg) "permission") = false →
      (strContainsSub (strLower msg) "quota" || strContainsSub (strLower msg) "limit") = true →
      classify_error msg = ErrorKind.RateLimitError) ∧
    ((strContainsSub (strLower msg) "api_key" || strContainsSub (strLower msg) "unauthorized" ||
        strContainsSub (strLower msg) "permission") = false →
      (strContainsSub (strLower msg) "quota" || strContainsSub (strLower msg) "limit") = false →
      classify_error msg = ErrorKind.GenericServiceError) := by
  refine ⟨fun h1 => ?_, fun h1 h2 => ?_, fun h1 h2 => ?_⟩
  · simp [classify_error, h1]
  · simp [classify_error, h1, h2]
  · simp [classify_error, h1, h2]

/-- C3 witness: the classifier on three concrete messages. -/
theorem C3_witness :
    classify_error "You exceeded your current quota" = ErrorKind.RateLimitError ∧
    classify_error "Request is UNAUTHORIZED" = ErrorKind.CredentialError ∧
    classify_error "service temporarily down" = ErrorKind.GenericServiceError :=
  ⟨(C3_holds "You exceeded your current quota").2.1 (by decide) (by decide),
   (C3_holds "Request is UNAUTHORIZED").1 (by decide),
   (C3_holds "service temporarily down").2.2 (by decide) (by decide)⟩

/-- C7: every failure of `generate_music_vibe` carries one of the two
wrapping prefixes, the parse prefix exactly for `json.loads` failures and
the generate prefix for everything else; the raw underlying exception
text never escapes unwrapped. -/
theorem C7_holds (description : String) (cr : ClientResult) (m : String)
    (h : generate_music_vibe description cr = .error m) :
    (strStartsWith m "Failed to parse AI response: " = true ∨
      strStartsWith m "Failed to generate music vibe: " = true) ∧
    ((∃ content diag, cr = ClientResult.returns (some content) ∧
        json_loads content = .error diag ∧
        m = "Failed to parse AI response: " ++ diag) ∨
      (∃ e, cr = ClientResult.raises e ∧
        m = "Failed to generate music vibe: " ++ e) ∨
      (cr = ClientResult.returns none ∧
        m = "Failed to generate music vibe: No content received from AI response")) := by
  cases cr with
  | raises e =>
    simp only [generate_music_vibe, Except.error.injEq] at h
    subst h
    exact ⟨Or.inr (strStartsWith_append _ _), Or.inr (Or.inl ⟨e, rfl, rfl⟩)⟩
  | returns t =>
    cases t with
    | none =>
      simp only [generate_music_vibe, Except.error.injEq] at h
      subst h
      refine ⟨Or.inr ?_, Or.inr (Or.inr ⟨rfl, rfl⟩)⟩
      exact strStartsWith_append "Failed to generate music vibe: "
        "No content received from AI response"
    | some content =>
      cases hj : json_loads content with
      | error diag =>
        simp only [generate_music_vibe, hj, Except.error.injEq] at h
        subst h
        exact ⟨Or.inl (strStartsWith_append _ _), Or.inl ⟨content, diag, rfl, hj, rfl⟩⟩
      | ok v =>
        simp only [generate_music_vibe, hj] at h
        cases h

/-- C7 witness: a concrete transport failure is wrapped with the generate
prefix. -/
theorem C7_witness :
    strStartsWith "Failed to generate music vibe: boom" "Failed to parse AI response: " = true ∨
    strStartsWith "Failed to generate music vibe: boom" "Failed to generate music vibe: " = true :=
  (C7_holds "a happy person" (ClientResult.raises "boom")
    "Failed to generate music vibe: boom" rfl).1

/-- C8: the prompt builder is a pure function of the description (equal
inputs give byte-identical text), and the prompt is the fixed template
with the description embedded verbatim between the two template halves,
whose seam quotes the description. -/
theorem C8_holds (d : String) (_h : d ≠ "") :
    (∀ d2, d2 = d → build_prompt d2 = build_prompt d) ∧
    build_prompt d = prompt_head ++ d ++ prompt_tail ∧
    (∃ s, prompt_head = s ++ "\"") ∧
    (∃ s, prompt_tail = "\"" ++ s) := by
  refine ⟨fun d2 h2 => by rw [h2], rfl, ⟨?_, ?_⟩, ⟨?_, ?_⟩⟩
  · exact "Given the following description of a person, suggest:\n1. Mood\n2. Music genre\n3. Energy level (low, medium, high)\n4. Aesthetic keywords (3-5)\n5. A matching artist or song\n\nDescription: "
  · rfl
  · exact "\n\nPlease respond with a JSON object in this exact format:\n\x7b\n    \"mood\": \"string\",\n    \"genre\": \"string\", \n    \"energy_level\": \"string\",\n    \"aesthetic_keywords\": [\"string1\", \"string2\", \"string3\"],\n    \"suggested_music\": \"string\"\n\x7d"
  · rfl

/-- C8 witness: the template decomposition at a concrete description. -/
theorem C8_witness :
    build_prompt "a happy person" = prompt_head ++ "a happy person" ++ prompt_tail :=
  (C8_holds "a happy person" (by decide)).2.1

/-- C9: the derived search link is the fixed base URL followed by
`suggested_music` with every space and every hyphen replaced by a plus
sign and all other characters unchanged (the two sequential
single-character replacements commute into one simultaneous map because a
plus sign is neither a space nor a hyphen). -/
theorem C9_holds (suggested : String) :
    youtube_url suggested =
      "https://www.youtube.com/results?search_query=" ++
        String.mk (suggested.data.map fun c => if c = ' ' ∨ c = '-' then '+' else c) := by
  have hfun : (fun c => if c = '-' then '+' else c) ∘ (fun c => if c = ' ' then '+' else c) =
      fun c : Char => if c = ' ' ∨ c = '-' then '+' else c := by
    funext c
    by_cases h1 : c = ' '
    · subst h1; decide
    · by_cases h2 : c = '-'
      · subst h2; decide
      · simp [h1, h2]
  unfold youtube_url youtube_query pyReplaceChar
  rw [String.data]
  congr 1
  rw [List.map_map, hfun]

/-- C1, claim as stated, refuted: a payload missing `suggested_music` is
accepted, but the field defaults to the placeholder
`"No suggestion available"` (`src/app.py:278`), not to `"Unknown"`. -/
theorem C1_counterexample :
    json_loads "\x7b\x7d" = .ok (JValue.obj []) ∧
    generate_music_vibe "a happy person" (ClientResult.returns (some "\x7b\x7d")) =
      .ok (JValue.obj []) ∧
    display_vibe_result (JValue.obj []) = .ok
      { mood := JValue.str "Unknown", genre := JValue.str "Unknown",
        energy_level := JValue.str "Unknown", aesthetic_keywords := JValue.arr [],
        suggested_music := JValue.str "No suggestion available",
        youtube_link := "https://www.youtube.com/results?search_query=No+suggestion+available" } ∧
    JValue.str "No suggestion available" ≠ JValue.str "Unknown" := by
  refine ⟨rfl, rfl, rfl, ?_⟩
  intro h
  injection h with h2
  exact absurd h2 (by decide)

/-- C1, amended: a parsed object missing required fields is accepted; the
missing `mood`, `genre` and `energy_level` default to `"Unknown"`,
a missing `aesthetic_keywords` defaults to the empty sequence, a missing
`suggested_music` defaults to `"No suggestion available"`, and every field
present in the payload keeps its payload value.  (The hypotheses reflect
that the rendering must not raise: present `energy_level` and
`suggested_music` values must be strings for the Python string methods,
and a present `aesthetic_keywords` value must be falsy or iterable so that
the keyword list comprehension does not raise `TypeError`.) -/
theorem C1_holds (fields : JObj)
    (hE : ∀ v, jget fields "energy_level" = some v → ∃ s, v = JValue.str s)
    (hS : ∀ v, jget fields "suggested_music" = some v → ∃ s, v = JValue.str s)
    (hK : ∀ v, jget fields "aesthetic_keywords" = some v →
      (pyTruthy v && !pyIterable v) = false) :
    ∃ r, display_vibe_result (JValue.obj fields) = .ok r ∧
      (jget fields "mood" = none → r.mood = JValue.str "Unknown") ∧
      (∀ v, jget fields "mood" = some v → r.mood = v) ∧
      (jget fields "genre" = none → r.genre = JValue.str "Unknown") ∧
      (∀ v, jget fields "genre" = some v → r.genre = v) ∧
      (jget fields "energy_level" = none → r.energy_level = JValue.str "Unknown") ∧
      (∀ v, jget fields "energy_level" = some v → r.energy_level = v) ∧
      (jget fields "aesthetic_keywords" = none → r.aesthetic_keywords = JValue.arr []) ∧
      (∀ v, jget fields "aesthetic_keywords" = some v → r.aesthetic_keywords = v) ∧
      (jget fields "suggested_music" = none →
        r.suggested_music = JValue.str "No suggestion available") ∧
      (∀ v, jget fields "suggested_music" = some v → r.suggested_music = v) ∧
      (∀ description content, json_loads content = .ok (JValue.obj fields) →
        generate_music_vibe description (ClientResult.returns (some content)) =
          .ok (JValue.obj fields)) := by
  obtain ⟨e, he⟩ : ∃ e, getOr fields "energy_level" (JValue.str "Unknown") = JValue.str e := by
    cases h : jget fields "energy_level" with
    | none => exact ⟨"Unknown", by simp [getOr, h]⟩
    | some v =>
      obtain ⟨s, rfl⟩ := hE v h
      exact ⟨s, by simp [getOr, h]⟩
  obtain ⟨sm, hs⟩ : ∃ sm, getOr fields "suggested_music" (JValue.str "No suggestion available") =
      JValue.str sm := by
    cases h : jget fields "suggested_music" with
    | none => exact ⟨"No suggestion available", by simp [getOr, h]⟩
    | some v =>
      obtain ⟨s, rfl⟩ := hS v h
      exact ⟨s, by simp [getOr, h]⟩
  have hkc : (pyTruthy (getOr fields "aesthetic_keywords" (JValue.arr [])) &&
      !pyIterable (getOr fields "aesthetic_keywords" (JValue.arr []))) = false := by
    cases h : jget fields "aesthetic_keywords" with
    | none => simp [getOr, h, pyTruthy, pyIterable]
    | some v =>
      rw [show getOr fields "aesthetic_keywords" (JValue.arr []) = v by simp [getOr, h]]
      exact hK v h
  refine ⟨_, display_eq_of_str fields e sm he hkc hs,
    fun h => by simp [getOr, h], fun v h => by simp [getOr, h],
    fun h => by simp [getOr, h], fun v h => by simp [getOr, h],
    fun h => by rw [← he]; simp [getOr, h], fun v h => by rw [← he]; simp [getOr, h],
    fun h => by simp [getOr, h], fun v h => by simp [getOr, h],
    fun h => by rw [← hs]; simp [getOr, h], fun v h => by rw [← hs]; simp [getOr, h],
    fun description content h => by simp [generate_music_vibe, h]⟩

/-- C1 witness: the amended claim at a one-field payload. -/
theorem C1_witness :
    ∃ r, display_vibe_result (JValue.obj [("mood", JValue.str "Calm")]) = .ok r ∧
      (jget [("mood", JValue.str "Calm")] "mood" = none → r.mood = JValue.str "Unknown") ∧
      (∀ v, jget [("mood", JValue.str "Calm")] "mood" = some v → r.mood = v) ∧
      (jget [("mood", JValue.str "Calm")] "genre" = none → r.genre = JValue.str "Unknown") ∧
      (∀ v, jget [("mood", JValue.str "Calm")] "genre" = some v → r.genre = v) ∧
      (jget [("mood", JValue.str "Calm")] "energy_level" = none →
        r.energy_level = JValue.str "Unknown") ∧
      (∀ v, jget [("mood", JValue.str "Calm")] "energy_level" = some v → r.energy_level = v) ∧
      (jget [("mood", JValue.str "Calm")] "aesthetic_keywords" = none →
        r.aesthetic_keywords = JValue.arr []) ∧
      (∀ v, jget [("mood", JValue.str "Calm")] "aesthetic_keywords" = some v →
        r.aesthetic_keywords = v) ∧
      (jget [("mood", JValue.str "Calm")] "suggested_music" = none →
        r.suggested_music = JValue.str "No suggestion available") ∧
      (∀ v, jget [("mood", JValue.str "Calm")] "suggested_music" = some v →
        r.suggested_music = v) ∧
      (∀ description content, json_loads content = .ok (JValue.obj [("mood", JValue.str "Calm")]) →
        generate_music_vibe description (ClientResult.returns (some content)) =
          .ok (JValue.obj [("mood", JValue.str "Calm")])) :=
  C1_holds [("mood", JValue.str "Calm")] (fun _ h => nomatch h) (fun _ h => nomatch h)
    (fun _ h => nomatch h)

/-- C4: a payload with all five required keys is accepted with exactly the
payload values (no coercion: the rendered fields are the very payload
values), and unexpected extra fields are ignored (any two payloads that
agree on the five keys render identically). -/
theorem C4_holds (description content : String) (fields : JObj)
    (m g e ks sm : JValue)
    (hparse : json_loads content = .ok (JValue.obj fields))
    (hm : jget fields "mood" = some m) (hg : jget fields "genre" = some g)
    (he : jget fields "energy_level" = some e)
    (hk : jget fields "aesthetic_keywords" = some ks)
    (hs : jget fields "suggested_music" = some sm) :
    generate_music_vibe description (ClientResult.returns (some content)) =
      .ok (JValue.obj fields) ∧
    (∀ r, display_vibe_result (JValue.obj fields) = .ok r →
      r.mood = m ∧ r.genre = g ∧ r.energy_level = e ∧
      r.aesthetic_keywords = ks ∧ r.suggested_music = sm) ∧
    (∀ fields2 : JObj, jget fields2 "mood" = some m → jget fields2 "genre" = some g →
      jget fields2 "energy_level" = some e → jget fields2 "aesthetic_keywords" = some ks →
      jget fields2 "suggested_music" = some sm →
      display_vibe_result (JValue.obj fields) = display_vibe_result (JValue.obj fields2)) := by
  refine ⟨by simp [generate_music_vibe, hparse], ?_, ?_⟩
  · intro r hr
    simp only [display_vibe_result, getOr, hm, hg, he, hk, hs, Option.getD_some] at hr
    split at hr
    · split at hr
      · cases hr
      · split at hr
        · injection hr with hr2
          subst hr2
          exact ⟨rfl, rfl, rfl, rfl, rfl⟩
        · cases hr
    · cases hr
  · intro f2 hm2 hg2 he2 hk2 hs2
    apply display_congr <;>
      simp [getOr, hm, hg, he, hk, hs, hm2, hg2, he2, hk2, hs2]

/-- C4 witness: the specification example payload is accepted verbatim. -/
theorem C4_witness :
    generate_music_vibe "a happy person" (ClientResult.returns (some
      "\x7b\"mood\":\"Calm\",\"genre\":\"Jazz\",\"energy_level\":\"low\",\"aesthetic_keywords\":[\"smooth\",\"night\"],\"suggested_music\":\"Miles Davis\"\x7d")) =
      .ok (JValue.obj [("mood", JValue.str "Calm"), ("genre", JValue.str "Jazz"),
        ("energy_level", JValue.str "low"),
        ("aesthetic_keywords", JValue.arr [JValue.str "smooth", JValue.str "night"]),
        ("suggested_music", JValue.str "Miles Davis")]) :=
  (C4_holds "a happy person"
    "\x7b\"mood\":\"Calm\",\"genre\":\"Jazz\",\"energy_level\":\"low\",\"aesthetic_keywords\":[\"smooth\",\"night\"],\"suggested_music\":\"Miles Davis\"\x7d"
    [("mood", JValue.str "Calm"), ("genre", JValue.str "Jazz"),
      ("energy_level", JValue.str "low"),
      ("aesthetic_keywords", JValue.arr [JValue.str "smooth", JValue.str "night"]),
      ("suggested_music", JValue.str "Miles Davis")]
    (JValue.str "Calm") (JValue.str "Jazz") (JValue.str "low")
    (JValue.arr [JValue.str "smooth", JValue.str "night"]) (JValue.str "Miles Davis")
    rfl rfl rfl rfl rfl rfl).1

/-- C5: every vibe request either fails (generation failure, or a
rendering failure on a payload that is not a suitable object) or surfaces
a rendered result in which all five fields are determined by the payload
values and the documented defaults — no partially populated result is
surfaced as a success. -/
theorem C5_holds (description : String) (cr : ClientResult) :
    (∃ m, vibe_request_pipeline description cr = .error m) ∨
    (∃ fields r, generate_music_vibe description cr = .ok (JValue.obj fields) ∧
      vibe_request_pipeline description cr = .ok r ∧ RenderMatches fields r) := by
  cases hgen : generate_music_vibe description cr with
  | error m => exact Or.inl ⟨m, by simp [vibe_request_pipeline, hgen]⟩
  | ok j =>
    have hp : vibe_request_pipeline description cr = display_vibe_result j := by
      simp [vibe_request_pipeline, hgen]
    cases j with
    | obj fields =>
      rcases hE : getOr fields "energy_level" (JValue.str "Unknown") with _ | b | l | e | es | fs
      · exact Or.inl ⟨"AttributeError: rendered field is not a string",
          by rw [hp]; simp [display_vibe_result, hE]⟩
      · exact Or.inl ⟨"AttributeError: rendered field is not a string",
          by rw [hp]; simp [display_vibe_result, hE]⟩
      · exact Or.inl ⟨"AttributeError: rendered field is not a string",
          by rw [hp]; simp [display_vibe_result, hE]⟩
      · cases hkw : (pyTruthy (getOr fields "aesthetic_keywords" (JValue.arr [])) &&
            !pyIterable (getOr fields "aesthetic_keywords" (JValue.arr []))) with
        | true =>
          exact Or.inl ⟨"TypeError: keywords value is not iterable",
            by rw [hp]; simp [display_vibe_result, hE, hkw]⟩
        | false =>
          rcases hS : getOr fields "suggested_music" (JValue.str "No suggestion available") with
            _ | b2 | l2 | sm | es2 | fs2
          · exact Or.inl ⟨"AttributeError: rendered field is not a string",
              by rw [hp]; simp [display_vibe_result, hE, hkw, hS]⟩
          · exact Or.inl ⟨"AttributeError: rendered field is not a string",
              by rw [hp]; simp [display_vibe_result, hE, hkw, hS]⟩
          · exact Or.inl ⟨"AttributeError: rendered field is not a string",
              by rw [hp]; simp [display_vibe_result, hE, hkw, hS]⟩
          · refine Or.inr ⟨fields,
              { mood := getOr fields "mood" (JValue.str "Unknown")
                genre := getOr fields "genre" (JValue.str "Unknown")
                energy_level := JValue.str e
                aesthetic_keywords := getOr fields "aesthetic_keywords" (JValue.arr [])
                suggested_music := JValue.str sm
                youtube_link := youtube_url sm }, rfl, ?_, ?_⟩
            · rw [hp]
              exact display_eq_of_str fields e sm hE hkw hS
            · exact ⟨rfl, rfl, hE.symm, rfl, hS.symm⟩
          · exact Or.inl ⟨"AttributeError: rendered field is not a string",
              by rw [hp]; simp [display_vibe_result, hE, hkw, hS]⟩
          · exact Or.inl ⟨"AttributeError: rendered field is not a string",
              by rw [hp]; simp [display_vibe_result, hE, hkw, hS]⟩
      · exact Or.inl ⟨"AttributeError: rendered field is not a string",
          by rw [hp]; simp [display_vibe_result, hE]⟩
      · exact Or.inl ⟨"AttributeError: rendered field is not a string",
          by rw [hp]; simp [display_vibe_result, hE]⟩
    | null =>
      exact Or.inl ⟨"AttributeError: result object has no attribute get", by rw [hp]; rfl⟩
    | bool b =>
      exact Or.inl ⟨"AttributeError: result object has no attribute get", by rw [hp]; rfl⟩
    | num l =>
      exact Or.inl ⟨"AttributeError: result object has no attribute get", by rw [hp]; rfl⟩
    | str s =>
      exact Or.inl ⟨"AttributeError: result object has no attribute get", by rw [hp]; rfl⟩
    | arr es =>
      exact Or.inl ⟨"AttributeError: result object has no attribute get", by rw [hp]; rfl⟩

/-- C6: the persistence write never raises (every failure of the insert is
swallowed into a log line with the store unchanged), and a persistence
failure during a successful generation never changes the terminal state
from `Succeeded`: the outcome is independent of the store. -/
theorem C6_holds (description uid : String) (cr : ClientResult) (db db2 : Option Store)
    (authed : Bool) (now : Nat) (j : JValue) :
    (generate_music_vibe description cr = .ok j →
      (orchestrate description cr db authed uid now).1 = Outcome.Succeeded j) ∧
    ((orchestrate description cr db authed uid now).1 =
      (orchestrate description cr db2 authed uid now).1) ∧
    (∀ (s : Store) (e : String) (fields : JObj), s.insertFails = some e →
      save_vibe_to_history (some s) uid description (JValue.obj fields) now =
        (some s, ["Failed to save vibe: " ++ e])) := by
  refine ⟨fun h => ?_, ?_, fun s e fields hins => ?_⟩
  · cases authed <;> simp [orchestrate, h]
  · cases hgen : generate_music_vibe description cr with
    | error m => simp [orchestrate, hgen]
    | ok v => cases authed <;> simp [orchestrate, hgen]
  · simp [save_vibe_to_history, save_attempt, hins]

/-- C6 witness: with a store whose insert raises, a successful generation
still ends `Succeeded` and the failure is only logged. -/
theorem C6_witness :
    (orchestrate "a happy person" (ClientResult.returns (some "\x7b\x7d"))
        (some { rows := [], insertFails := some "db down", queryFails := none })
        true "u" 0).1 = Outcome.Succeeded (JValue.obj []) ∧
    save_vibe_to_history (some { rows := [], insertFails := some "db down", queryFails := none })
        "u" "a happy person" (JValue.obj []) 0 =
      (some { rows := [], insertFails := some "db down", queryFails := none },
        ["Failed to save vibe: " ++ "db down"]) := by
  have h := C6_holds "a happy person" "u" (ClientResult.returns (some "\x7b\x7d"))
    (some { rows := [], insertFails := some "db down", queryFails := none }) none true 0
    (JValue.obj [])
  exact ⟨h.1 rfl, h.2.2 _ "db down" [] rfl⟩

/-- C10: `get_user_history` never raises: an unconfigured store yields the
empty list, a raising query is caught and yields the empty list, and
otherwise the result is the query data — at most 10 rows, all belonging to
the requested user, ordered by `created_at` descending. -/
theorem C10_holds (db : Option Store) (uid : String) :
    (db = none → get_user_history db uid = []) ∧
    (∀ s e, db = some s → s.queryFails = some e → get_user_history db uid = []) ∧
    (∀ s, db = some s → s.queryFails = none →
      get_user_history db uid = runHistoryQuery s.rows uid ∧
      (get_user_history db uid).length ≤ 10 ∧
      (∀ r ∈ get_user_history db uid, r.user_id = uid) ∧
      (get_user_history db uid).Pairwise rowGe) := by
  refine ⟨fun h => by simp [h, get_user_history], fun s e h hq => ?_, fun s h hq => ?_⟩
  · subst h
    simp [get_user_history, historyQueryResult, hq]
  · subst h
    have hget : get_user_history (some s) uid = runHistoryQuery s.rows uid := by
      simp [get_user_history, historyQueryResult, hq]
    refine ⟨hget, ?_, ?_, ?_⟩
    · rw [hget]
      exact List.length_take_le _ _
    · intro r hr
      rw [hget] at hr
      unfold runHistoryQuery at hr
      have hr2 := List.take_subset _ _ hr
      have hr3 := mem_sortDesc.mp hr2
      exact eq_of_beq (List.mem_filter.mp hr3).2
    · rw [hget]
      unfold runHistoryQuery
      exact List.Pairwise.sublist (List.take_sublist _ _) (pairwise_sortDesc _)

/-- Sample store used by the C10 witness. -/
def sampleStore : Store :=
  { rows := [
      { user_id := "u", description := "d1", mood := none, genre := none,
        energy_level := none, aesthetic_keywords := none, suggested_music := none,
        created_at := 1 },
      { user_id := "v", description := "d2", mood := none, genre := none,
        energy_level := none, aesthetic_keywords := none, suggested_music := none,
        created_at := 5 },
      { user_id := "u", description := "d3", mood := none, genre := none,
        energy_level := none, aesthetic_keywords := none, suggested_music := none,
        created_at := 3 }],
    insertFails := none, queryFails := none }

/-- C10 witness: the history read on a concrete three-row store. -/
theorem C10_witness :
    get_user_history (some sampleStore) "u" = runHistoryQuery sampleStore.rows "u" ∧
    (get_user_history (some sampleStore) "u").length ≤ 10 := by
  have h := (C10_holds (some sampleStore) "u").2.2 sampleStore rfl rfl
  exact ⟨h.1, h.2.1⟩
